import Mathlib

/-!
Verification of the Song metadata value object of the Strawberry music
player (`src/core/song.cpp`), as a shallow embedding in Lean 4.

Modelling conventions:
* `QString` is modelled as `String` (a null `QString` and an empty one are
  both the empty string — the code never distinguishes them observably in
  the functions embedded here).
* `int` and `qint64` are modelled as `Int` (value semantics of the spec).
* `QUrl` is modelled as the encoded `String` form; `QUrl::fromEncoded` and
  `QUrl::toEncoded` are identities on that representation.
* The ambient application state (portable mode, URL resolution, the
  album-cover cache probed by `Song::InitArtManual`) is an explicit `Env`
  record threaded through the functions that consult it.
* `QImage image_` is omitted: no embedded function reads or writes it
  except the trivial accessor pair.
-/

/-- Ambient application environment consulted by `Song`'s adapters:
`Application::kIsPortable`, URL resolution against the application
directory, drive comparison for relational binding, and the cover-art
cache lookup performed by `Song::InitArtManual` (SHA1 hash of
artist/album into the image cache directory, adopted only when the file
exists — modelled as an optional path-valued lookup). -/
structure Env where
  portable : Bool
  resolve : String → String
  sameDrive : String → Bool
  relPath : String → String
  cachedCover : String → String → Option String

/-- File type enumeration of `song.h` (`Song::FileType`). -/
inductive FileType where
  | unknown
  | asf
  | flac
  | mp4
  | mpc
  | mpeg
  | oggFlac
  | oggSpeex
  | oggVorbis
  | oggOpus
  | aiff
  | wav
  | trueaudio
  | cdda
  deriving Repr, DecidableEq

/-- Integer code of a `FileType` (the enum's underlying value, used when
the type is stored in a relational column). -/
def FileType.code : FileType → Int
  | .unknown => 0
  | .asf => 1
  | .flac => 2
  | .mp4 => 3
  | .mpc => 4
  | .mpeg => 5
  | .oggFlac => 6
  | .oggSpeex => 7
  | .oggVorbis => 8
  | .oggOpus => 9
  | .aiff => 10
  | .wav => 11
  | .trueaudio => 12
  | .cdda => 13

/-- Source `Song::FileType(int)` — decode an integer column back into the enum;
unknown codes resolve to `unknown` (spec: malformed/unknown filetype is
the Unknown sentinel, not an error). -/
def FileType.ofCode (i : Int) : FileType :=
  if i = 1 then .asf
  else if i = 2 then .flac
  else if i = 3 then .mp4
  else if i = 4 then .mpc
  else if i = 5 then .mpeg
  else if i = 6 then .oggFlac
  else if i = 7 then .oggSpeex
  else if i = 8 then .oggVorbis
  else if i = 9 then .oggOpus
  else if i = 10 then .aiff
  else if i = 11 then .wav
  else if i = 12 then .trueaudio
  else if i = 13 then .cdda
  else .unknown

/-- The payload of `Song::Private` (copy-on-write sharing is a memory
optimisation invisible to value semantics, so the handle and the payload
collapse into one record). Field order follows the C++ declaration. -/
structure Song where
  valid : Bool
  id : Int
  album_id : Int
  title : String
  album : String
  artist : String
  albumartist : String
  track : Int
  disc : Int
  year : Int
  originalyear : Int
  genre : String
  compilation : Bool
  composer : String
  performer : String
  grouping : String
  comment : String
  beginning : Int
  end_ : Int
  bitrate : Int
  samplerate : Int
  bitdepth : Int
  directory_id : Int
  basefilename : String
  url : String
  filetype : FileType
  filesize : Int
  mtime : Int
  ctime : Int
  unavailable : Bool
  playcount : Int
  skipcount : Int
  lastplayed : Int
  compilation_detected : Bool
  compilation_on : Bool
  compilation_off : Bool
  art_automatic : String
  art_manual : String
  cue_path : String
  init_from_file : Bool
  suspicious_tags : Bool

/-- Source `Song::Private::Private()` / `Song::Song()`: the default-constructed
record. The C++ constructor's initialiser list OMITS `bitdepth_`, leaving
it uninitialised (an indeterminate `int`); the parameter `bitdepthInit`
stands for that indeterminate value. Every other field is initialised as
in the source (strings default-construct to empty `QString`s). -/
def Song.mkDefault (bitdepthInit : Int) : Song where
  valid := false
  id := -1
  album_id := -1
  title := ""
  album := ""
  artist := ""
  albumartist := ""
  track := -1
  disc := -1
  year := -1
  originalyear := -1
  genre := ""
  compilation := false
  composer := ""
  performer := ""
  grouping := ""
  comment := ""
  beginning := 0
  end_ := -1
  bitrate := -1
  samplerate := -1
  bitdepth := bitdepthInit
  directory_id := -1
  basefilename := ""
  url := ""
  filetype := .unknown
  filesize := -1
  mtime := -1
  ctime := -1
  unavailable := false
  playcount := 0
  skipcount := 0
  lastplayed := -1
  compilation_detected := false
  compilation_on := false
  compilation_off := false
  art_automatic := ""
  art_manual := ""
  cue_path := ""
  init_from_file := false
  suspicious_tags := false

/-- Source `Song::effective_album`: `album` if non-empty, else `title`. -/
def Song.effective_album (s : Song) : String :=
  if s.album = "" then s.title else s.album

/-- Source `Song::effective_albumartist`: `albumartist` if non-empty, else `artist`. -/
def Song.effective_albumartist (s : Song) : String :=
  if s.albumartist = "" then s.artist else s.albumartist

/-- Source `Song::effective_originalyear`: `originalyear` if `≥ 0`, else `year`. -/
def Song.effective_originalyear (s : Song) : Int :=
  if s.originalyear < 0 then s.year else s.originalyear

/-- Source `Song::is_compilation()`. -/
def Song.is_compilation (s : Song) : Bool :=
  (s.compilation || s.compilation_detected || s.compilation_on) && !s.compilation_off

/-- Source `Song::has_cue()`: the CUE path is non-empty. -/
def Song.has_cue (s : Song) : Bool :=
  !(s.cue_path == "")

/-- Source `Song::length_nanosec()`: `end - beginning`, derived and never stored. -/
def Song.length_nanosec (s : Song) : Int :=
  s.end_ - s.beginning

/-- Source `Song::set_beginning_nanosec(v)`: clamps negative values to 0 (`qMax(0ll, v)`). -/
def Song.set_beginning_nanosec (s : Song) (v : Int) : Song :=
  { s with beginning := max 0 v }

/-- Source `Song::set_end_nanosec(v)`. -/
def Song.set_end_nanosec (s : Song) (v : Int) : Song :=
  { s with end_ := v }

/-- Source `Song::set_length_nanosec(v)`: rewrites `end = beginning + v`. -/
def Song.set_length_nanosec (s : Song) (v : Int) : Song :=
  { s with end_ := s.beginning + v }

/-- Source `Song::set_url(v)`: in portable mode the URL is resolved against the
application directory, otherwise stored as-is. -/
def Song.set_url (env : Env) (s : Song) (v : String) : Song :=
  if env.portable then { s with url := env.resolve v } else { s with url := v }

/-- Source `Song::set_playcount(v)`. -/
def Song.set_playcount (s : Song) (v : Int) : Song := { s with playcount := v }

/-- Source `Song::set_skipcount(v)`. -/
def Song.set_skipcount (s : Song) (v : Int) : Song := { s with skipcount := v }

/-- Source `Song::set_lastplayed(v)`. -/
def Song.set_lastplayed (s : Song) (v : Int) : Song := { s with lastplayed := v }

/-- Source `Song::set_art_manual(v)`. -/
def Song.set_art_manual (s : Song) (v : String) : Song := { s with art_manual := v }

/-- Source `Song::MergeUserSetData(other)`: copies playcount, skipcount,
lastplayed and art_manual from `other` into `this`. -/
def Song.MergeUserSetData (s other : Song) : Song :=
  (((s.set_playcount other.playcount).set_skipcount
      other.skipcount).set_lastplayed other.lastplayed).set_art_manual other.art_manual

/-- Source `Song::IsMetadataEqual(other)`: the exact field list compared by the
source. -/
def Song.IsMetadataEqual (s other : Song) : Bool :=
  s.title == other.title &&
  s.album == other.album &&
  s.artist == other.artist &&
  s.albumartist == other.albumartist &&
  s.composer == other.composer &&
  s.performer == other.performer &&
  s.grouping == other.grouping &&
  s.track == other.track &&
  s.disc == other.disc &&
  s.year == other.year &&
  s.originalyear == other.originalyear &&
  s.genre == other.genre &&
  s.comment == other.comment &&
  s.compilation == other.compilation &&
  s.beginning == other.beginning &&
  s.length_nanosec == other.length_nanosec &&
  s.bitrate == other.bitrate &&
  s.samplerate == other.samplerate &&
  s.bitdepth == other.bitdepth &&
  s.art_automatic == other.art_automatic &&
  s.art_manual == other.art_manual &&
  s.cue_path == other.cue_path

/-- Source `Song::IsOnSameAlbum(other)`: compilation status must agree; then a
shared non-empty CUE path, a shared album among compilations, or matching
effective album and effective albumartist. -/
def Song.IsOnSameAlbum (s other : Song) : Bool :=
  if s.is_compilation != other.is_compilation then false
  else if s.has_cue && other.has_cue && s.cue_path == other.cue_path then true
  else if s.is_compilation && s.album == other.album then true
  else s.effective_album == other.effective_album &&
       s.effective_albumartist == other.effective_albumartist

/-- Source `Song::AlbumKey()`: the string `"%1|%2|%3"` with the compilation flag
or effective albumartist, the CUE path if any, and the effective album. -/
def Song.AlbumKey (s : Song) : String :=
  (if s.is_compilation then "_compilation" else s.effective_albumartist) ++ "|" ++
  (if s.has_cue then s.cue_path else "") ++ "|" ++ s.effective_album

/-- Source `Song::InitArtManual()`: when both art fields are empty, probe the
cover cache (keyed on artist and album) and adopt the cached path when
the file exists. -/
def Song.InitArtManual (env : Env) (s : Song) : Song :=
  if s.art_manual = "" ∧ s.art_automatic = "" then
    match env.cachedCover s.artist s.album with
    | some path => { s with art_manual := path }
    | none => s
  else s

/-- The wire message `pb::tagreader::SongMetadata` (fields touched by
`Song::ToProtobuf` / `Song::InitFromProtobuf`). The two optional fields
`art_automatic` and `playcount` carry explicit presence flags
(`has_art_automatic` / `has_playcount`); the remaining fields read their
proto defaults (0 / empty / false) when never set. The `filetype` enum of
the message mirrors `Song::FileType` value-for-value (the source converts
with `static_cast`), so it is modelled by the same type. -/
structure SongMetadata where
  valid : Bool
  title : String
  album : String
  artist : String
  albumartist : String
  composer : String
  performer : String
  grouping : String
  track : Int
  disc : Int
  year : Int
  originalyear : Int
  genre : String
  comment : String
  compilation : Bool
  playcount : Int
  has_playcount : Bool
  skipcount : Int
  lastplayed : Int
  length_nanosec : Int
  bitrate : Int
  samplerate : Int
  bitdepth : Int
  url : String
  basefilename : String
  mtime : Int
  ctime : Int
  filesize : Int
  suspicious_tags : Bool
  art_automatic : String
  has_art_automatic : Bool
  filetype : FileType

/-- Source `Song::ToProtobuf(pb)`: writes every listed field into the message;
in particular it always sets `playcount` and `art_automatic`, so the
serialized message always has both presence flags true. -/
def Song.ToProtobuf (s : Song) : SongMetadata where
  valid := s.valid
  title := s.title
  album := s.album
  artist := s.artist
  albumartist := s.albumartist
  composer := s.composer
  performer := s.performer
  grouping := s.grouping
  track := s.track
  disc := s.disc
  year := s.year
  originalyear := s.originalyear
  genre := s.genre
  comment := s.comment
  compilation := s.compilation
  playcount := s.playcount
  has_playcount := true
  skipcount := s.skipcount
  lastplayed := s.lastplayed
  length_nanosec := s.length_nanosec
  bitrate := s.bitrate
  samplerate := s.samplerate
  bitdepth := s.bitdepth
  url := s.url
  basefilename := s.basefilename
  mtime := s.mtime
  ctime := s.ctime
  filesize := s.filesize
  suspicious_tags := s.suspicious_tags
  art_automatic := s.art_automatic
  has_art_automatic := true
  filetype := s.filetype

/-- Source `Song::InitFromProtobuf(pb)`: populates the record from the message
in source order; `length` goes through `set_length_nanosec` (so only
`end` is written, `beginning` keeps its prior value), the URL through
`set_url`, the two optional fields are copied only when present, and
`InitArtManual` runs last. -/
def Song.InitFromProtobuf (env : Env) (s : Song) (pb : SongMetadata) : Song :=
  let s1 : Song :=
    { s with
      init_from_file := true
      valid := pb.valid
      title := pb.title
      album := pb.album
      artist := pb.artist
      albumartist := pb.albumartist
      composer := pb.composer
      performer := pb.performer
      grouping := pb.grouping
      track := pb.track
      disc := pb.disc
      year := pb.year
      originalyear := pb.originalyear
      genre := pb.genre
      comment := pb.comment
      compilation := pb.compilation
      skipcount := pb.skipcount
      lastplayed := pb.lastplayed }
  let s2 := s1.set_length_nanosec pb.length_nanosec
  let s3 : Song := { s2 with bitrate := pb.bitrate, samplerate := pb.samplerate, bitdepth := pb.bitdepth }
  let s4 := Song.set_url env s3 pb.url
  let s5 : Song :=
    { s4 with
      basefilename := pb.basefilename
      mtime := pb.mtime
      ctime := pb.ctime
      filesize := pb.filesize
      suspicious_tags := pb.suspicious_tags
      filetype := pb.filetype }
  let s6 := if pb.has_art_automatic then { s5 with art_automatic := pb.art_automatic } else s5
  let s7 := if pb.has_playcount then { s6 with playcount := pb.playcount } else s6
  Song.InitArtManual env s7

/-- A SQL cell (`QVariant`): NULL, an integer, or a string. -/
inductive QVariant where
  | vNull
  | vInt (i : Int)
  | vStr (s : String)
  deriving Repr, DecidableEq

/-- Source `QVariant::isNull()`. -/
def QVariant.isNull : QVariant → Bool
  | .vNull => true
  | _ => false

/-- Source `QVariant::toInt()` (also used for `toLongLong`): NULL converts to 0,
strings convert Qt-style (irrelevant here, modelled as 0). -/
def QVariant.toInt : QVariant → Int
  | .vNull => 0
  | .vInt i => i
  | .vStr _ => 0

/-- Source `QVariant::toString()`: integers print, NULL becomes the empty string. -/
def QVariant.toString : QVariant → String
  | .vNull => ""
  | .vInt i => ToString.toString i
  | .vStr s => s

/-- Source `QVariant::toBool()`: non-zero ints are true; strings are true unless
empty, "0" or "false"; NULL is false. -/
def QVariant.toBool : QVariant → Bool
  | .vNull => false
  | .vInt i => i != 0
  | .vStr s => !(s = "" ∨ s = "0" ∨ s = "false")

/-- The macro `tostr(n)` of `InitFromQuery`: NULL reads as a null (empty)
string, otherwise `toString`. -/
def tostr (v : QVariant) : String :=
  if v.isNull then "" else v.toString

/-- The macro `toint(n)` (and `tolonglong(n)`) of `InitFromQuery`: NULL
reads as -1, otherwise the integer value. -/
def toint (v : QVariant) : Int :=
  if v.isNull then -1 else v.toInt

/-- Source `QUrl::toLocalFile()` on the encoded-string model: strips a
`file://` scheme, empty for non-local URLs. -/
def urlToLocalFile (s : String) : String :=
  if s.startsWith "file://" then s.drop 7 else ""

/-- Source `QFileInfo::fileName()`: the component after the last slash. -/
def fileNameOf (s : String) : String :=
  (s.splitOn "/").getLastD ""

/-- Source `Song::kColumns`: the fixed, versioned relational column list, in
source order. -/
def kColumns : List String :=
  ["title", "album", "artist", "albumartist", "track", "disc", "year",
   "originalyear", "genre", "compilation", "composer", "performer",
   "grouping", "comment", "beginning", "length", "bitrate", "samplerate",
   "bitdepth", "directory_id", "filename", "filetype", "filesize", "mtime",
   "ctime", "unavailable", "playcount", "skipcount", "lastplayed",
   "compilation_detected", "compilation_on", "compilation_off",
   "compilation_effective", "art_automatic", "art_manual",
   "effective_albumartist", "effective_originalyear", "cue_path"]

/-- One branch of the name-dispatch cascade in `Song::InitFromQuery`:
given a column name and the cell at its position, update the record.
Returns the updated record and any "Forgot to handle" report for an
unrecognized column name. -/
def applyColumn (env : Env) (c : String) (v : QVariant) (s : Song) : Song × List String :=
  if c = "title" then ({ s with title := tostr v }, [])
  else if c = "album" then ({ s with album := tostr v }, [])
  else if c = "artist" then ({ s with artist := tostr v }, [])
  else if c = "albumartist" then ({ s with albumartist := tostr v }, [])
  else if c = "track" then ({ s with track := toint v }, [])
  else if c = "disc" then ({ s with disc := toint v }, [])
  else if c = "year" then ({ s with year := toint v }, [])
  else if c = "originalyear" then ({ s with originalyear := toint v }, [])
  else if c = "genre" then ({ s with genre := tostr v }, [])
  else if c = "compilation" then ({ s with compilation := v.toBool }, [])
  else if c = "composer" then ({ s with composer := tostr v }, [])
  else if c = "performer" then ({ s with performer := tostr v }, [])
  else if c = "grouping" then ({ s with grouping := tostr v }, [])
  else if c = "comment" then ({ s with comment := tostr v }, [])
  else if c = "beginning" then ({ s with beginning := if v.isNull then 0 else v.toInt }, [])
  else if c = "length" then (s.set_length_nanosec (toint v), [])
  else if c = "bitrate" then ({ s with bitrate := toint v }, [])
  else if c = "samplerate" then ({ s with samplerate := toint v }, [])
  else if c = "bitdepth" then ({ s with bitdepth := toint v }, [])
  else if c = "directory_id" then ({ s with directory_id := toint v }, [])
  else if c = "filename" then
    let s' := Song.set_url env s (tostr v)
    ({ s' with basefilename := fileNameOf (urlToLocalFile s'.url) }, [])
  else if c = "filetype" then ({ s with filetype := FileType.ofCode v.toInt }, [])
  else if c = "filesize" then ({ s with filesize := toint v }, [])
  else if c = "mtime" then ({ s with mtime := toint v }, [])
  else if c = "ctime" then ({ s with ctime := toint v }, [])
  else if c = "unavailable" then ({ s with unavailable := v.toBool }, [])
  else if c = "playcount" then ({ s with playcount := if v.isNull then 0 else v.toInt }, [])
  else if c = "skipcount" then ({ s with skipcount := if v.isNull then 0 else v.toInt }, [])
  else if c = "lastplayed" then ({ s with lastplayed := toint v }, [])
  else if c = "compilation_detected" then ({ s with compilation_detected := v.toBool }, [])
  else if c = "compilation_on" then ({ s with compilation_on := v.toBool }, [])
  else if c = "compilation_off" then ({ s with compilation_off := v.toBool }, [])
  else if c = "compilation_effective" then (s, [])
  else if c = "art_automatic" then ({ s with art_automatic := v.toString }, [])
  else if c = "art_manual" then ({ s with art_manual := v.toString }, [])
  else if c = "effective_albumartist" then (s, [])
  else if c = "effective_originalyear" then (s, [])
  else if c = "cue_path" then ({ s with cue_path := tostr v }, [])
  else (s, ["Forgot to handle " ++ c])

/-- The column loop of `Song::InitFromQuery`: walk the remaining column
names with the running row index `x`; when `x` runs past the end of the
row, report "Skipping <column>" and break (leaving all remaining fields
untouched). -/
def initFromQueryLoop (env : Env) (row : List QVariant) :
    List String → Nat → Song → Song × List String
  | [], _, s => (s, [])
  | c :: rest, x, s =>
    if row.length ≤ x then (s, ["Skipping " ++ c])
    else
      let (s', errs) := applyColumn env c (row.getD x .vNull) s
      let (s'', errs') := initFromQueryLoop env row rest (x + 1) s'
      (s'', errs ++ errs')

/-- Source `Song::InitFromQuery(q, reliable_metadata, col)`: reads `id` from
position `col`, then the columns of `kColumns` from the following
positions (stopping at a truncated row), sets `valid` and
`init_from_file`, and finishes with `InitArtManual`. Returns the record
together with the list of reported (non-fatal) conditions. -/
def Song.InitFromQuery (env : Env) (s : Song) (row : List QVariant)
    (reliable_metadata : Bool) (col : Nat) : Song × List String :=
  let s0 : Song := { s with id := toint (row.getD col .vNull) }
  let (s1, errs) := initFromQueryLoop env row kColumns (col + 1) s0
  let s2 : Song := { s1 with valid := true, init_from_file := reliable_metadata }
  (Song.InitArtManual env s2, errs)

/-- The macro `strval(x)` of `Song::BindToQuery`: a null `QString` binds
as the empty string (identity in this model, where null and empty
coincide). -/
def strval (x : String) : String := x

/-- The macro `intval(x)` of `Song::BindToQuery`: any value `≤ 0` binds
as the sentinel -1. -/
def intval (x : Int) : Int :=
  if x ≤ 0 then -1 else x

/-- The macro `notnullintval(x)` of `Song::BindToQuery`: exactly -1 binds
as SQL NULL. -/
def notnullintval (x : Int) : QVariant :=
  if x = -1 then .vNull else .vInt x

/-- Source `Song::BindToQuery(query)`: the bound row, in `kBindSpec` (that is,
`kColumns`) order. -/
def Song.BindToQuery (env : Env) (s : Song) : List QVariant :=
  [.vStr (strval s.title),
   .vStr (strval s.album),
   .vStr (strval s.artist),
   .vStr (strval s.albumartist),
   .vInt (intval s.track),
   .vInt (intval s.disc),
   .vInt (intval s.year),
   .vInt (intval s.originalyear),
   .vStr (strval s.genre),
   .vInt (if s.compilation then 1 else 0),
   .vStr (strval s.composer),
   .vStr (strval s.performer),
   .vStr (strval s.grouping),
   .vStr (strval s.comment),
   .vInt s.beginning,
   .vInt (intval s.length_nanosec),
   .vInt (intval s.bitrate),
   .vInt (intval s.samplerate),
   .vInt (intval s.bitdepth),
   notnullintval s.directory_id,
   .vStr (if env.portable && env.sameDrive s.url then env.relPath s.url else s.url),
   .vInt s.filetype.code,
   notnullintval s.filesize,
   notnullintval s.mtime,
   notnullintval s.ctime,
   .vInt (if s.unavailable then 1 else 0),
   .vInt s.playcount,
   .vInt s.skipcount,
   .vInt (intval s.lastplayed),
   .vInt (if s.compilation_detected then 1 else 0),
   .vInt (if s.compilation_on then 1 else 0),
   .vInt (if s.compilation_off then 1 else 0),
   .vInt (if s.is_compilation then 1 else 0),
   .vStr s.art_automatic,
   .vStr s.art_manual,
   .vStr s.effective_albumartist,
   .vInt (intval s.effective_originalyear),
   .vStr s.cue_path]

/-- Relational round trip: bind a record's row (`BindToQuery`), prepend
an `id` cell (the select list starts with the ROWID), and populate a
fresh default-constructed record from it (`InitFromQuery` at `col = 0`). -/
def relRoundtrip (env : Env) (s : Song) : Song :=
  (Song.InitFromQuery env (Song.mkDefault 0)
    (QVariant.vInt s.id :: Song.BindToQuery env s) true 0).1

/-- Wire round trip: serialize a record (`ToProtobuf`) and populate a
fresh default-constructed record from the message (`InitFromProtobuf`). -/
def wireRoundtrip (env : Env) (s : Song) : Song :=
  Song.InitFromProtobuf env (Song.mkDefault 0) s.ToProtobuf

/-- The URL value bound by `BindToQuery` for the `filename` column: the
portable-relative form when portable mode is on and the URL lives on the
same drive as the application, otherwise the URL as-is. -/
def relStoredUrl (env : Env) (s : Song) : String :=
  if env.portable && env.sameDrive s.url then env.relPath s.url else s.url

/-- The URL held by a record read back from a relational row: the stored
URL passed through `set_url` again. -/
def relReadUrl (env : Env) (s : Song) : String :=
  if env.portable then env.resolve (relStoredUrl env s) else relStoredUrl env s

/-- The record produced by `InitFromProtobuf` on a fresh default record,
written out field by field (the step before the final `InitArtManual`
call): message fields land in their record fields, `beginning` stays 0,
`end` becomes `0 + length`, the two optional fields apply only when
present, and everything the message does not carry keeps its default. -/
def pbRecord (env : Env) (pb : SongMetadata) : Song where
  valid := pb.valid
  id := -1
  album_id := -1
  title := pb.title
  album := pb.album
  artist := pb.artist
  albumartist := pb.albumartist
  track := pb.track
  disc := pb.disc
  year := pb.year
  originalyear := pb.originalyear
  genre := pb.genre
  compilation := pb.compilation
  composer := pb.composer
  performer := pb.performer
  grouping := pb.grouping
  comment := pb.comment
  beginning := 0
  end_ := 0 + pb.length_nanosec
  bitrate := pb.bitrate
  samplerate := pb.samplerate
  bitdepth := pb.bitdepth
  directory_id := -1
  basefilename := pb.basefilename
  url := if env.portable then env.resolve pb.url else pb.url
  filetype := pb.filetype
  filesize := pb.filesize
  mtime := pb.mtime
  ctime := pb.ctime
  unavailable := false
  playcount := if pb.has_playcount then pb.playcount else 0
  skipcount := pb.skipcount
  lastplayed := pb.lastplayed
  compilation_detected := false
  compilation_on := false
  compilation_off := false
  art_automatic := if pb.has_art_automatic then pb.art_automatic else ""
  art_manual := ""
  cue_path := ""
  init_from_file := true
  suspicious_tags := pb.suspicious_tags

/-- A concrete environment for witnesses and counterexamples: portable
mode off, no cached covers. -/
def env0 : Env := ⟨false, id, fun _ => false, id, fun _ _ => none⟩

/-- A record whose `track` is 0: the relational binder collapses it to -1. -/
def songTrackZero : Song := { Song.mkDefault 0 with track := 0 }

/-- A record with a non-zero `beginning`: the wire schema cannot carry it. -/
def songBeginOne : Song := { Song.mkDefault 0 with beginning := 1, end_ := 3 }

/-- A record marked compilation by user override, with album and albumartist set. -/
def songCompOn : Song :=
  { Song.mkDefault 0 with compilation_on := true, album := "X", albumartist := "Y" }

/-- A plain record with the same album and albumartist as `songCompOn`. -/
def songPlain : Song := { Song.mkDefault 0 with album := "X", albumartist := "Y" }

/-- A record with a bare title and artist "A" (album and albumartist empty). -/
def songTitleA : Song := { Song.mkDefault 0 with title := "T", artist := "A" }

/-- A record with the same bare title but artist "B". -/
def songTitleB : Song := { Song.mkDefault 0 with title := "T", artist := "B" }

/-- A compilation record with album "X" and a CUE path. -/
def songCueComp : Song :=
  { Song.mkDefault 0 with compilation := true, album := "X", cue_path := "c" }

/-- A compilation record with album "X" and no CUE path. -/
def songNoCueComp : Song := { Song.mkDefault 0 with compilation := true, album := "X" }

lemma toint_vInt (i : Int) : toint (.vInt i) = i := rfl

lemma tostr_vStr (s : String) : tostr (.vStr s) = s := rfl

lemma toint_notnullintval (x : Int) : toint (notnullintval x) = x := by
  unfold toint notnullintval
  split_ifs with h <;> simp_all [QVariant.isNull, QVariant.toInt]

lemma toBool_boolBind (b : Bool) : (QVariant.vInt (if b then 1 else 0)).toBool = b := by
  cases b <;> decide

lemma ofCode_code (t : FileType) : FileType.ofCode t.code = t := by
  cases t <;> decide

lemma isNull_vInt (i : Int) : (QVariant.vInt i).isNull = false := rfl

lemma toInt_vInt (i : Int) : (QVariant.vInt i).toInt = i := rfl

lemma toString_vStr (s : String) : (QVariant.vStr s).toString = s := rfl

/-- Helper: `InitArtManual` touches at most the `art_manual` field. -/
lemma initArtManual_art_only (env : Env) (t : Song) :
    ∃ m, Song.InitArtManual env t = { t with art_manual := m } := by
  unfold Song.InitArtManual
  split_ifs with h
  · cases hc : env.cachedCover t.artist t.album
    · exact ⟨t.art_manual, rfl⟩
    · exact ⟨_, rfl⟩
  · exact ⟨t.art_manual, rfl⟩

lemma initArtManual_track (env : Env) (t : Song) :
    (Song.InitArtManual env t).track = t.track := by
  obtain ⟨m, hm⟩ := initArtManual_art_only env t; rw [hm]

lemma initArtManual_disc (env : Env) (t : Song) :
    (Song.InitArtManual env t).disc = t.disc := by
  obtain ⟨m, hm⟩ := initArtManual_art_only env t; rw [hm]

lemma initArtManual_year (env : Env) (t : Song) :
    (Song.InitArtManual env t).year = t.year := by
  obtain ⟨m, hm⟩ := initArtManual_art_only env t; rw [hm]

lemma initArtManual_originalyear (env : Env) (t : Song) :
    (Song.InitArtManual env t).originalyear = t.originalyear := by
  obtain ⟨m, hm⟩ := initArtManual_art_only env t; rw [hm]

lemma initArtManual_bitrate (env : Env) (t : Song) :
    (Song.InitArtManual env t).bitrate = t.bitrate := by
  obtain ⟨m, hm⟩ := initArtManual_art_only env t; rw [hm]

lemma initArtManual_samplerate (env : Env) (t : Song) :
    (Song.InitArtManual env t).samplerate = t.samplerate := by
  obtain ⟨m, hm⟩ := initArtManual_art_only env t; rw [hm]

lemma initArtManual_bitdepth (env : Env) (t : Song) :
    (Song.InitArtManual env t).bitdepth = t.bitdepth := by
  obtain ⟨m, hm⟩ := initArtManual_art_only env t; rw [hm]

lemma initArtManual_lastplayed (env : Env) (t : Song) :
    (Song.InitArtManual env t).lastplayed = t.lastplayed := by
  obtain ⟨m, hm⟩ := initArtManual_art_only env t; rw [hm]

/-- Stage 1 of the column loop of `InitFromQuery`: the first ten columns
(title through compilation) at indices 1-10, over any row of the full
39-cell width, continuing with any remaining column list. -/
lemma loop_chunkA (env : Env) (row : List QVariant) (rest : List String)
    (hlen : row.length = 39) (t : Song) :
    initFromQueryLoop env row
        (["title", "album", "artist", "albumartist", "track", "disc", "year",
          "originalyear", "genre", "compilation"] ++ rest) 1 t =
      initFromQueryLoop env row rest 11
        { t with
          title := tostr (row.getD 1 .vNull)
          album := tostr (row.getD 2 .vNull)
          artist := tostr (row.getD 3 .vNull)
          albumartist := tostr (row.getD 4 .vNull)
          track := toint (row.getD 5 .vNull)
          disc := toint (row.getD 6 .vNull)
          year := toint (row.getD 7 .vNull)
          originalyear := toint (row.getD 8 .vNull)
          genre := tostr (row.getD 9 .vNull)
          compilation := (row.getD 10 .vNull).toBool } := by
  simp [initFromQueryLoop, applyColumn, hlen]

/-- Stage 2 of the column loop: composer through bitdepth at indices
11-19 (the `length` column rebuilds `end` from the just-read
`beginning`). -/
lemma loop_chunkB (env : Env) (row : List QVariant) (rest : List String)
    (hlen : row.length = 39) (t : Song) :
    initFromQueryLoop env row
        (["composer", "performer", "grouping", "comment", "beginning", "length",
          "bitrate", "samplerate", "bitdepth"] ++ rest) 11 t =
      initFromQueryLoop env row rest 20
        { t with
          composer := tostr (row.getD 11 .vNull)
          performer := tostr (row.getD 12 .vNull)
          grouping := tostr (row.getD 13 .vNull)
          comment := tostr (row.getD 14 .vNull)
          beginning := if (row.getD 15 .vNull).isNull then 0 else (row.getD 15 .vNull).toInt
          end_ := (if (row.getD 15 .vNull).isNull then 0 else (row.getD 15 .vNull).toInt) +
            toint (row.getD 16 .vNull)
          bitrate := toint (row.getD 17 .vNull)
          samplerate := toint (row.getD 18 .vNull)
          bitdepth := toint (row.getD 19 .vNull) } := by
  simp [initFromQueryLoop, applyColumn, hlen, Song.set_length_nanosec]

/-- Stage 3 of the column loop: directory_id through lastplayed at
indices 20-29 (the `filename` column goes through `set_url` and derives
`basefilename`). -/
lemma loop_chunkC (env : Env) (row : List QVariant) (rest : List String)
    (hlen : row.length = 39) (t : Song) :
    initFromQueryLoop env row
        (["directory_id", "filename", "filetype", "filesize", "mtime", "ctime",
          "unavailable", "playcount", "skipcount", "lastplayed"] ++ rest) 20 t =
      initFromQueryLoop env row rest 30
        { t with
          directory_id := toint (row.getD 20 .vNull)
          url := if env.portable then env.resolve (tostr (row.getD 21 .vNull))
                 else tostr (row.getD 21 .vNull)
          basefilename := fileNameOf (urlToLocalFile
            (if env.portable then env.resolve (tostr (row.getD 21 .vNull))
             else tostr (row.getD 21 .vNull)))
          filetype := FileType.ofCode (row.getD 22 .vNull).toInt
          filesize := toint (row.getD 23 .vNull)
          mtime := toint (row.getD 24 .vNull)
          ctime := toint (row.getD 25 .vNull)
          unavailable := (row.getD 26 .vNull).toBool
          playcount := if (row.getD 27 .vNull).isNull then 0 else (row.getD 27 .vNull).toInt
          skipcount := if (row.getD 28 .vNull).isNull then 0 else (row.getD 28 .vNull).toInt
          lastplayed := toint (row.getD 29 .vNull) } := by
  by_cases hp : env.portable <;>
    simp [initFromQueryLoop, applyColumn, hlen, Song.set_url, hp]

/-- Stage 4 of the column loop: compilation_detected through cue_path at
indices 30-38 (the three derived write-only columns are no-ops), ending
the loop with no reported condition. -/
lemma loop_chunkD (env : Env) (row : List QVariant)
    (hlen : row.length = 39) (t : Song) :
    initFromQueryLoop env row
        ["compilation_detected", "compilation_on", "compilation_off",
         "compilation_effective", "art_automatic", "art_manual",
         "effective_albumartist", "effective_originalyear", "cue_path"] 30 t =
      ({ t with
          compilation_detected := (row.getD 30 .vNull).toBool
          compilation_on := (row.getD 31 .vNull).toBool
          compilation_off := (row.getD 32 .vNull).toBool
          art_automatic := (row.getD 34 .vNull).toString
          art_manual := (row.getD 35 .vNull).toString
          cue_path := tostr (row.getD 38 .vNull) }, []) := by
  simp [initFromQueryLoop, applyColumn, hlen]

set_option maxRecDepth 4000 in
/-- The whole 38-column loop over any row of the full 39-cell width,
assembled from the four stages. -/
lemma loop_kColumns (env : Env) (row : List QVariant) (hlen : row.length = 39) (t : Song) :
    initFromQueryLoop env row kColumns 1 t =
      ({ t with
          title := tostr (row.getD 1 .vNull)
          album := tostr (row.getD 2 .vNull)
          artist := tostr (row.getD 3 .vNull)
          albumartist := tostr (row.getD 4 .vNull)
          track := toint (row.getD 5 .vNull)
          disc := toint (row.getD 6 .vNull)
          year := toint (row.getD 7 .vNull)
          originalyear := toint (row.getD 8 .vNull)
          genre := tostr (row.getD 9 .vNull)
          compilation := (row.getD 10 .vNull).toBool
          composer := tostr (row.getD 11 .vNull)
          performer := tostr (row.getD 12 .vNull)
          grouping := tostr (row.getD 13 .vNull)
          comment := tostr (row.getD 14 .vNull)
          beginning := if (row.getD 15 .vNull).isNull then 0 else (row.getD 15 .vNull).toInt
          end_ := (if (row.getD 15 .vNull).isNull then 0 else (row.getD 15 .vNull).toInt) +
            toint (row.getD 16 .vNull)
          bitrate := toint (row.getD 17 .vNull)
          samplerate := toint (row.getD 18 .vNull)
          bitdepth := toint (row.getD 19 .vNull)
          directory_id := toint (row.getD 20 .vNull)
          url := if env.portable then env.resolve (tostr (row.getD 21 .vNull))
                 else tostr (row.getD 21 .vNull)
          basefilename := fileNameOf (urlToLocalFile
            (if env.portable then env.resolve (tostr (row.getD 21 .vNull))
             else tostr (row.getD 21 .vNull)))
          filetype := FileType.ofCode (row.getD 22 .vNull).toInt
          filesize := toint (row.getD 23 .vNull)
          mtime := toint (row.getD 24 .vNull)
          ctime := toint (row.getD 25 .vNull)
          unavailable := (row.getD 26 .vNull).toBool
          playcount := if (row.getD 27 .vNull).isNull then 0 else (row.getD 27 .vNull).toInt
          skipcount := if (row.getD 28 .vNull).isNull then 0 else (row.getD 28 .vNull).toInt
          lastplayed := toint (row.getD 29 .vNull)
          compilation_detected := (row.getD 30 .vNull).toBool
          compilation_on := (row.getD 31 .vNull).toBool
          compilation_off := (row.getD 32 .vNull).toBool
          art_automatic := (row.getD 34 .vNull).toString
          art_manual := (row.getD 35 .vNull).toString
          cue_path := tostr (row.getD 38 .vNull) }, []) := by
  have hsplit : kColumns =
      ["title", "album", "artist", "albumartist", "track", "disc", "year",
       "originalyear", "genre", "compilation"] ++
      (["composer", "performer", "grouping", "comment", "beginning", "length",
        "bitrate", "samplerate", "bitdepth"] ++
       (["directory_id", "filename", "filetype", "filesize", "mtime", "ctime",
         "unavailable", "playcount", "skipcount", "lastplayed"] ++
        ["compilation_detected", "compilation_on", "compilation_off",
         "compilation_effective", "art_automatic", "art_manual",
         "effective_albumartist", "effective_originalyear", "cue_path"])) := rfl
  rw [hsplit, loop_chunkA env row _ hlen, loop_chunkB env row _ hlen,
      loop_chunkC env row _ hlen, loop_chunkD env row hlen]

set_option maxRecDepth 8000 in
/-- Characterisation of the full relational round trip: binding a record
and reading the row back produces `InitArtManual` of an explicit record.
Sentinel-coded int fields pass through `intval` (so any value `≤ 0`
reads back as -1), NULL-coded fields (`directory_id`, `filesize`,
`mtime`, `ctime`) read back exactly, strings and booleans read back
exactly, and `end` is rebuilt as `beginning + intval (length)`. -/
lemma relRoundtrip_eq (env : Env) (s : Song) :
    relRoundtrip env s =
      Song.InitArtManual env
        { valid := true
          id := s.id
          album_id := -1
          title := s.title
          album := s.album
          artist := s.artist
          albumartist := s.albumartist
          track := intval s.track
          disc := intval s.disc
          year := intval s.year
          originalyear := intval s.originalyear
          genre := s.genre
          compilation := s.compilation
          composer := s.composer
          performer := s.performer
          grouping := s.grouping
          comment := s.comment
          beginning := s.beginning
          end_ := s.beginning + intval (s.end_ - s.beginning)
          bitrate := intval s.bitrate
          samplerate := intval s.samplerate
          bitdepth := intval s.bitdepth
          directory_id := s.directory_id
          basefilename := fileNameOf (urlToLocalFile (relReadUrl env s))
          url := relReadUrl env s
          filetype := s.filetype
          filesize := s.filesize
          mtime := s.mtime
          ctime := s.ctime
          unavailable := s.unavailable
          playcount := s.playcount
          skipcount := s.skipcount
          lastplayed := intval s.lastplayed
          compilation_detected := s.compilation_detected
          compilation_on := s.compilation_on
          compilation_off := s.compilation_off
          art_automatic := s.art_automatic
          art_manual := s.art_manual
          cue_path := s.cue_path
          init_from_file := true
          suspicious_tags := false } := by
  have hlen : (QVariant.vInt s.id :: Song.BindToQuery env s).length = 39 := rfl
  simp only [relRoundtrip, Song.InitFromQuery,
    loop_kColumns env (QVariant.vInt s.id :: Song.BindToQuery env s) hlen]
  congr 1
  simp [Song.BindToQuery, Song.mkDefault, Song.length_nanosec, relReadUrl, relStoredUrl,
    toint_vInt, tostr_vStr, toint_notnullintval, toBool_boolBind, ofCode_code,
    isNull_vInt, toInt_vInt, toString_vStr, strval]

/-- Characterisation of `InitFromProtobuf` on a fresh default record:
equal to `InitArtManual` of `pbRecord`, for any uninitialised-bitdepth
value `j` (the message always overwrites `bitdepth`). -/
lemma initFromProtobuf_default_eq (env : Env) (j : Int) (pb : SongMetadata) :
    Song.InitFromProtobuf env (Song.mkDefault j) pb =
      Song.InitArtManual env (pbRecord env pb) := by
  by_cases hp : env.portable <;>
    by_cases ha : pb.has_art_automatic <;>
      by_cases hc : pb.has_playcount <;>
        simp [Song.InitFromProtobuf, Song.mkDefault, Song.set_length_nanosec,
          Song.set_url, pbRecord, hp, ha, hc]

/-- Helper: serialisation ignores the one field `InitArtManual` can set. -/
lemma toProtobuf_initArtManual (env : Env) (t : Song) :
    (Song.InitArtManual env t).ToProtobuf = t.ToProtobuf := by
  obtain ⟨m, hm⟩ := initArtManual_art_only env t
  rw [hm]
  rfl

/-- Claim C1 (amended): for the int fields with -1-sentinel semantics
(track, disc, year, originalyear, bitrate, samplerate, bitdepth,
lastplayed), the wire round trip (`ToProtobuf` then `InitFromProtobuf`)
returns the written value exactly, for every value (in particular every
`x ≥ 0`, and -1 for the sentinel); the relational round trip
(`BindToQuery` then `InitFromQuery`) returns the written value for
`x > 0` and returns -1 for every `x ≤ 0` — including `x = 0`, which the
binder's `intval` collapses to the sentinel. -/
theorem c1_sentinel_roundtrip_amended (env : Env) (s : Song) :
    ((relRoundtrip env s).track = if s.track ≤ 0 then -1 else s.track) ∧
    ((relRoundtrip env s).disc = if s.disc ≤ 0 then -1 else s.disc) ∧
    ((relRoundtrip env s).year = if s.year ≤ 0 then -1 else s.year) ∧
    ((relRoundtrip env s).originalyear = if s.originalyear ≤ 0 then -1 else s.originalyear) ∧
    ((relRoundtrip env s).bitrate = if s.bitrate ≤ 0 then -1 else s.bitrate) ∧
    ((relRoundtrip env s).samplerate = if s.samplerate ≤ 0 then -1 else s.samplerate) ∧
    ((relRoundtrip env s).bitdepth = if s.bitdepth ≤ 0 then -1 else s.bitdepth) ∧
    ((relRoundtrip env s).lastplayed = if s.lastplayed ≤ 0 then -1 else s.lastplayed) ∧
    (wireRoundtrip env s).track = s.track ∧
    (wireRoundtrip env s).disc = s.disc ∧
    (wireRoundtrip env s).year = s.year ∧
    (wireRoundtrip env s).originalyear = s.originalyear ∧
    (wireRoundtrip env s).bitrate = s.bitrate ∧
    (wireRoundtrip env s).samplerate = s.samplerate ∧
    (wireRoundtrip env s).bitdepth = s.bitdepth ∧
    (wireRoundtrip env s).lastplayed = s.lastplayed := by
  rw [relRoundtrip_eq, wireRoundtrip, initFromProtobuf_default_eq]
  simp only [initArtManual_track, initArtManual_disc, initArtManual_year,
    initArtManual_originalyear, initArtManual_bitrate, initArtManual_samplerate,
    initArtManual_bitdepth, initArtManual_lastplayed]
  simp [pbRecord, Song.ToProtobuf, intval]

/-- Claim C1, counterexample to the claim as stated: the value 0 is
`≥ 0`, but the relational round trip returns -1 for a track of 0 (the
wire round trip returns 0). -/
theorem c1_relational_zero_counterexample :
    songTrackZero.track = 0 ∧ (relRoundtrip env0 songTrackZero).track = -1 :=
  ⟨rfl, rfl⟩

/-- Claim C2 (amended): a record populated via the wire adapter
(`InitFromProtobuf` on a fresh default record, from any message, with
any combination of the presence flags for the optional fields
`art_automatic` and `playcount`), serialized with `ToProtobuf` and
deserialized into a fresh record, is metadata-equal to the original. -/
theorem c2_wire_roundtrip_amended (env : Env) (pb : SongMetadata) (j j' : Int) :
    Song.IsMetadataEqual
      (Song.InitFromProtobuf env (Song.mkDefault j) pb)
      (Song.InitFromProtobuf env (Song.mkDefault j')
        (Song.ToProtobuf (Song.InitFromProtobuf env (Song.mkDefault j) pb))) = true := by
  rw [initFromProtobuf_default_eq env j pb, toProtobuf_initArtManual,
      initFromProtobuf_default_eq env j']
  by_cases ha : pb.has_art_automatic <;>
    by_cases hpc : pb.has_playcount <;>
      by_cases hstr : pb.art_automatic = "" <;>
        simp [Song.InitArtManual, pbRecord, Song.ToProtobuf, Song.IsMetadataEqual,
          Song.length_nanosec, ha, hpc, hstr] <;>
        cases hc : env.cachedCover pb.artist pb.album <;>
          simp [hc]

/-- Claim C2, counterexample to the claim as stated over every record:
a record with a non-zero `beginning` is not metadata-equal to its wire
round trip, because the wire schema carries only `length`, and
`InitFromProtobuf` rebuilds `end = beginning + length` on a fresh record
whose `beginning` is 0. -/
theorem c2_roundtrip_counterexample :
    Song.IsMetadataEqual songBeginOne (wireRoundtrip env0 songBeginOne) = false := rfl

/-- Claim C3: `is_compilation` is exactly
`(compilation ∨ compilation_detected ∨ compilation_on) ∧ ¬compilation_off`,
for every record (hence for all 16 combinations of the four booleans). -/
theorem c3_is_compilation_truth_table (s : Song) :
    s.is_compilation = true ↔
      ((s.compilation = true ∨ s.compilation_detected = true ∨ s.compilation_on = true) ∧
        ¬ s.compilation_off = true) := by
  simp [Song.is_compilation, Bool.or_eq_true, Bool.and_eq_true]
  tauto

/-- Claim C4 (amended): `IsOnSameAlbum` returns true iff the two
records' compilation status AGREES, and (a) both have the identical
non-empty CUE path, or (b) both are compilations with identical album,
or (c) effective album and effective albumartist both match. The
compilation-status gate applies to every branch, including (c), which
the original claim stated without it. -/
theorem c4_same_album_amended (a b : Song) :
    a.IsOnSameAlbum b = true ↔
      (a.is_compilation = b.is_compilation ∧
        ((a.has_cue = true ∧ b.has_cue = true ∧ a.cue_path = b.cue_path) ∨
         (a.is_compilation = true ∧ b.is_compilation = true ∧ a.album = b.album) ∨
         (a.effective_album = b.effective_album ∧
          a.effective_albumartist = b.effective_albumartist))) := by
  unfold Song.IsOnSameAlbum
  split_ifs with h1 h2 h3
  · simp only [bne_iff_ne, ne_eq] at h1
    simp [h1]
  · simp only [bne_iff_ne, ne_eq, not_not] at h1
    simp only [Bool.and_eq_true, beq_iff_eq] at h2
    simp [h1, h2]
  · simp only [bne_iff_ne, ne_eq, not_not] at h1
    simp only [Bool.and_eq_true, beq_iff_eq] at h3
    constructor
    · intro _
      exact ⟨h1, Or.inr (Or.inl ⟨h3.1, h1.symm.trans h3.1, h3.2⟩)⟩
    · intro _
      rfl
  · simp only [bne_iff_ne, ne_eq, not_not] at h1
    simp only [Bool.and_eq_true, beq_iff_eq, not_and] at h2 h3
    constructor
    · rintro hh
      simp only [Bool.and_eq_true, beq_iff_eq] at hh
      exact ⟨h1, Or.inr (Or.inr hh)⟩
    · rintro ⟨-, hcase⟩
      rcases hcase with ⟨hca, hcb, hcp⟩ | ⟨hca, hcb, hal⟩ | ⟨hea, heaa⟩
      · exact absurd hcp (h2 ⟨hca, hcb⟩)
      · exact absurd hal (h3 hca)
      · simp [hea, heaa]

/-- Claim C4, counterexample to the claim as stated: two records whose
effective album and effective albumartist both match (branch (c) of the
claim) but whose compilation status differs are NOT on the same album —
the code's compilation-status gate rejects them before branch (c). -/
theorem c4_same_album_counterexample :
    songCompOn.effective_album = songPlain.effective_album ∧
    songCompOn.effective_albumartist = songPlain.effective_albumartist ∧
    songCompOn.IsOnSameAlbum songPlain = false :=
  ⟨rfl, rfl, rfl⟩

/-- Claim C5 (amended): two non-compilation records with empty `album`
and empty `albumartist`, identical `title` AND identical `artist` are
grouped together — `effective_album` falls back to the title and
`effective_albumartist` falls back to the artist, so the artists must
also agree. -/
theorem c5_title_fallback_grouping_amended (a b : Song)
    (hal : a.album = "") (hbl : b.album = "")
    (haa : a.albumartist = "") (hba : b.albumartist = "")
    (ht : a.title = b.title) (har : a.artist = b.artist)
    (hca : a.is_compilation = false) (hcb : b.is_compilation = false) :
    a.IsOnSameAlbum b = true := by
  unfold Song.IsOnSameAlbum
  split_ifs with h1 h2 h3
  · rw [hca, hcb] at h1
    exact absurd rfl (bne_iff_ne.mp h1)
  · rfl
  · rfl
  · simp [Song.effective_album, Song.effective_albumartist, hal, hbl, haa, hba, ht, har]

/-- Claim C5 witness: the amended grouping theorem applied at a concrete
record pair. -/
theorem c5_title_fallback_grouping_witness :
    Song.IsOnSameAlbum songTitleA songTitleA = true :=
  c5_title_fallback_grouping_amended songTitleA songTitleA rfl rfl rfl rfl rfl rfl rfl rfl

/-- Claim C5, counterexample to the claim as stated: two non-compilation
records with empty album and albumartist and identical title "T" but
different artists ("A" vs "B") are NOT grouped — `effective_albumartist`
falls back to the differing artists. -/
theorem c5_title_fallback_counterexample :
    songTitleA.album = "" ∧ songTitleB.album = "" ∧
    songTitleA.albumartist = "" ∧ songTitleB.albumartist = "" ∧
    songTitleA.title = songTitleB.title ∧
    songTitleA.is_compilation = false ∧ songTitleB.is_compilation = false ∧
    songTitleA.IsOnSameAlbum songTitleB = false :=
  ⟨rfl, rfl, rfl, rfl, rfl, rfl, rfl, rfl⟩

/-- Claim C6 (amended): for two records neither of which has a CUE path
and neither of which is a compilation, `IsOnSameAlbum` implies an
identical `AlbumKey`. (In general the implication fails: CUE-path
presence enters the key but not every grouping branch, and compilations
group on raw `album` while the key uses `effective_album`.) -/
theorem c6_album_key_amended (a b : Song)
    (hqa : a.has_cue = false) (hqb : b.has_cue = false)
    (hca : a.is_compilation = false) (hcb : b.is_compilation = false)
    (h : a.IsOnSameAlbum b = true) :
    a.AlbumKey = b.AlbumKey := by
  unfold Song.IsOnSameAlbum at h
  rw [hca, hcb, hqa, hqb] at h
  simp only [bne_self_eq_false, Bool.false_eq_true, if_false, Bool.false_and,
    Bool.and_eq_true, beq_iff_eq] at h
  unfold Song.AlbumKey
  rw [hca, hcb, hqa, hqb, h.1, h.2]
  simp

/-- Claim C6 witness: the amended AlbumKey-stability theorem applied at
a concrete record pair. -/
theorem c6_album_key_witness : Song.AlbumKey songTitleA = Song.AlbumKey songTitleA :=
  c6_album_key_amended songTitleA songTitleA rfl rfl rfl rfl rfl

/-- Claim C6, counterexample to the claim as stated: two compilations
with identical album "X" are on the same album (branch (b)), but one has
a CUE path and the other does not, and the CUE path is part of the key:
the keys are "_compilation|c|X" and "_compilation||X". -/
theorem c6_album_key_counterexample :
    songCueComp.IsOnSameAlbum songNoCueComp = true ∧
    songCueComp.AlbumKey ≠ songNoCueComp.AlbumKey := by
  constructor
  · rfl
  · decide

/-- Claim C7: `set_length_nanosec L` followed by `length_nanosec` returns
`L` for every record and every `L` (since `end` becomes `beginning + L`),
and `beginning` is unchanged by the call. -/
theorem c7_set_length_roundtrip (s : Song) (L : Int) :
    (s.set_length_nanosec L).length_nanosec = L ∧
      (s.set_length_nanosec L).beginning = s.beginning := by
  constructor
  · simp [Song.set_length_nanosec, Song.length_nanosec]
  · rfl

/-- Claim C8: `InitFromQuery` on a truncated result set holding only the
id column plus the first 10 of the expected columns (title through
compilation) populates exactly those columns, leaves every later field
at the value the default constructor gave it (the record equals the
default record updated only at the populated fields, plus the
`valid`/`init_from_file` marks the initializer always sets), and reports
the skip of the first missing column ("composer") as its only non-fatal
condition; the embedding is a total function, so no fatal error occurs.
The hypothesis fixes an empty cover cache, so the read-time cover-cache
probe (`InitArtManual`) leaves `art_manual` untouched. -/
theorem c8_truncated_query (env : Env) (j : Int) (r : Bool)
    (q0 q1 q2 q3 q4 q5 q6 q7 q8 q9 q10 : QVariant)
    (hcache : ∀ a b, env.cachedCover a b = none) :
    Song.InitFromQuery env (Song.mkDefault j)
        [q0, q1, q2, q3, q4, q5, q6, q7, q8, q9, q10] r 0 =
      ({ Song.mkDefault j with
          valid := true
          init_from_file := r
          id := toint q0
          title := tostr q1
          album := tostr q2
          artist := tostr q3
          albumartist := tostr q4
          track := toint q5
          disc := toint q6
          year := toint q7
          originalyear := toint q8
          genre := tostr q9
          compilation := q10.toBool },
        ["Skipping composer"]) := by
  simp [Song.InitFromQuery, initFromQueryLoop, kColumns, applyColumn,
    Song.InitArtManual, Song.mkDefault, hcache]

/-- Claim C8 witness: the truncated-read theorem applied at a concrete
row of 11 cells under the concrete empty-cache environment. -/
theorem c8_truncated_query_witness :
    Song.InitFromQuery env0 (Song.mkDefault 7)
        [.vInt 1, .vStr "t", .vStr "al", .vStr "ar", .vStr "aa",
         .vInt 3, .vInt 1, .vInt 2000, .vInt 1999, .vStr "g", .vInt 1] true 0 =
      ({ Song.mkDefault 7 with
          valid := true
          init_from_file := true
          id := 1
          title := "t"
          album := "al"
          artist := "ar"
          albumartist := "aa"
          track := 3
          disc := 1
          year := 2000
          originalyear := 1999
          genre := "g"
          compilation := true },
        ["Skipping composer"]) :=
  c8_truncated_query env0 7 true (.vInt 1) (.vStr "t") (.vStr "al") (.vStr "ar")
    (.vStr "aa") (.vInt 3) (.vInt 1) (.vInt 2000) (.vInt 1999) (.vStr "g") (.vInt 1)
    (fun _ _ => rfl)

/-- Claim C9: the default-constructed record has `valid = false` and
every initialised field at its documented sentinel/default — EXCEPT
`bitdepth`, whose initialiser is missing from the source constructor's
list: the field keeps whatever indeterminate value `j` the storage held,
not -1. This theorem exhibits the divergence by tracking `j`. -/
theorem c9_default_song_fields (j : Int) :
    (Song.mkDefault j).valid = false ∧
    (Song.mkDefault j).id = -1 ∧
    (Song.mkDefault j).album_id = -1 ∧
    (Song.mkDefault j).track = -1 ∧
    (Song.mkDefault j).disc = -1 ∧
    (Song.mkDefault j).year = -1 ∧
    (Song.mkDefault j).originalyear = -1 ∧
    (Song.mkDefault j).beginning = 0 ∧
    (Song.mkDefault j).end_ = -1 ∧
    (Song.mkDefault j).bitrate = -1 ∧
    (Song.mkDefault j).samplerate = -1 ∧
    (Song.mkDefault j).bitdepth = j ∧
    (Song.mkDefault j).directory_id = -1 ∧
    (Song.mkDefault j).filetype = FileType.unknown ∧
    (Song.mkDefault j).filesize = -1 ∧
    (Song.mkDefault j).mtime = -1 ∧
    (Song.mkDefault j).ctime = -1 ∧
    (Song.mkDefault j).unavailable = false ∧
    (Song.mkDefault j).playcount = 0 ∧
    (Song.mkDefault j).skipcount = 0 ∧
    (Song.mkDefault j).lastplayed = -1 ∧
    (Song.mkDefault j).compilation = false ∧
    (Song.mkDefault j).compilation_detected = false ∧
    (Song.mkDefault j).compilation_on = false ∧
    (Song.mkDefault j).compilation_off = false ∧
    (Song.mkDefault j).title = "" ∧
    (Song.mkDefault j).album = "" ∧
    (Song.mkDefault j).artist = "" ∧
    (Song.mkDefault j).albumartist = "" ∧
    (Song.mkDefault j).art_automatic = "" ∧
    (Song.mkDefault j).art_manual = "" ∧
    (Song.mkDefault j).cue_path = "" ∧
    (Song.mkDefault j).init_from_file = false ∧
    (Song.mkDefault j).suspicious_tags = false := by
  refine ⟨rfl, rfl, rfl, rfl, rfl, rfl, rfl, rfl, rfl, rfl, rfl, rfl, rfl, rfl, rfl, rfl,
    rfl, rfl, rfl, rfl, rfl, rfl, rfl, rfl, rfl, rfl, rfl, rfl, rfl, rfl, rfl, rfl, rfl, rfl⟩

/-- Claim C10: `MergeUserSetData` copies exactly playcount, skipcount,
lastplayed and art_manual from the other record, every other field of
the receiver staying unchanged (the result is the receiver updated at
those four fields only). -/
theorem c10_merge_user_set_data_frame (a b : Song) :
    a.MergeUserSetData b =
      { a with
        playcount := b.playcount
        skipcount := b.skipcount
        lastplayed := b.lastplayed
        art_manual := b.art_manual } := rfl
